import Mathlib

/-!
Verification development for the multi-tool RAG prompt-generator repository.

The Python sources under `src/` are shallowly embedded below:
pure functions become Lean functions over `String`, `List` and `ℚ`
(float scores are modelled as exact rationals, all score arithmetic in the
source is on decimal literals so this is faithful); fallible code returns
`Except`/`Option`; the external Chroma vector database is modelled as an
opaque ranking function carried in a `VectorStore` value, with its
documented metadata-filter contract made explicit in `similarity_search`.
-/

/-! ## Python string primitives used by the sources -/

/-- Python `str.lower()` (ASCII case folding, which is all the sources
use), as a per-character map over the string's character list. -/
def pyLower (s : String) : String := String.mk (s.data.map Char.toLower)

/-- Contiguous-sublist test used to model Python substring membership. -/
def listIsInfixOf {α : Type} [BEq α] (needle : List α) : List α → Bool
  | [] => List.isPrefixOf needle []
  | b :: rest => List.isPrefixOf needle (b :: rest) || listIsInfixOf needle rest

/-- Python `needle in hay` substring test. -/
def pyContains (needle hay : String) : Bool := listIsInfixOf needle.toList hay.toList

/-- Worker for `pyTitle`: tracks whether the previous character was alphabetic. -/
def pyTitleGo : Bool → List Char → List Char
  | _, [] => []
  | prevAlpha, c :: cs =>
    let c' := if c.isAlpha then (if prevAlpha then c.toLower else c.toUpper) else c
    c' :: pyTitleGo c.isAlpha cs

/-- Python `str.title()` for the ASCII strings appearing in the sources. -/
def pyTitle (s : String) : String := String.mk (pyTitleGo false s.toList)

/-- Python `str.strip()` with no argument (trim surrounding whitespace). -/
def pyStrip (s : String) : String := s.trim

/-- Python `"\n".join(f"- {x}" for x in xs)`, the bullet-list idiom of the sources. -/
def bulletLines (xs : List String) : String :=
  String.intercalate "\n" (xs.map (fun r => "- " ++ r))

/-! ## Core data model (`src/src/core/types.py`) -/

namespace RAG

/-- Source `PromptStage` enumeration. -/
inductive PromptStage
  | app_skeleton
  | page_ui
  | flow_connections
  | feature_specific
  | debugging
  | optimization
deriving DecidableEq, Repr

/-- Source `PromptStage.value` (the Python enum value string). -/
def PromptStage.value : PromptStage → String
  | .app_skeleton => "app_skeleton"
  | .page_ui => "page_ui"
  | .flow_connections => "flow_connections"
  | .feature_specific => "feature_specific"
  | .debugging => "debugging"
  | .optimization => "optimization"

/-- Source `SupportedTool` enumeration. -/
inductive SupportedTool
  | lovable
  | uizard
  | adalo
  | flutterflow
  | framer
  | bubble
  | bolt
  | cursor
  | cline
  | v0
  | devin
  | windsurf
  | roocode
  | manus
  | same_dev
deriving DecidableEq, Repr

/-- Source `SupportedTool.value` (the Python enum value string). -/
def SupportedTool.value : SupportedTool → String
  | .lovable => "lovable"
  | .uizard => "uizard"
  | .adalo => "adalo"
  | .flutterflow => "flutterflow"
  | .framer => "framer"
  | .bubble => "bubble"
  | .bolt => "bolt"
  | .cursor => "cursor"
  | .cline => "cline"
  | .v0 => "v0"
  | .devin => "devin"
  | .windsurf => "windsurf"
  | .roocode => "roocode"
  | .manus => "manus"
  | .same_dev => "same_dev"

/-- Python `str(tool)` for a `SupportedTool` enum member. -/
def SupportedTool.pyStr : SupportedTool → String
  | .lovable => "SupportedTool.LOVABLE"
  | .uizard => "SupportedTool.UIZARD"
  | .adalo => "SupportedTool.ADALO"
  | .flutterflow => "SupportedTool.FLUTTERFLOW"
  | .framer => "SupportedTool.FRAMER"
  | .bubble => "SupportedTool.BUBBLE"
  | .bolt => "SupportedTool.BOLT"
  | .cursor => "SupportedTool.CURSOR"
  | .cline => "SupportedTool.CLINE"
  | .v0 => "SupportedTool.V0"
  | .devin => "SupportedTool.DEVIN"
  | .windsurf => "SupportedTool.WINDSURF"
  | .roocode => "SupportedTool.ROOCODE"
  | .manus => "SupportedTool.MANUS"
  | .same_dev => "SupportedTool.SAME_DEV"

/-- Source `AppStructure` dataclass. -/
structure AppStructure where
  pages : List String
  components : List String
  features : List String
  navigation_flow : List (String × List String)
deriving DecidableEq, Repr

/-- Source `PageSpec` dataclass. -/
structure PageSpec where
  page_name : String
  layout_type : String
  components : List String
  interactions : List String
  data_requirements : List String
deriving DecidableEq, Repr

/-- Source `FlowConnection` dataclass. -/
structure FlowConnection where
  from_page : String
  to_page : String
  trigger : String
  animation : Option String := none
  conditions : Option (List String) := none
deriving DecidableEq, Repr

/-- Source `TaskContext` dataclass (the `src/src/core/types.py` variant used by the
basic and enhanced generators). -/
structure TaskContext where
  task_type : String
  project_name : String
  description : String
  stage : PromptStage
  technical_requirements : List String
  ui_requirements : List String
  constraints : List String
  target_tool : SupportedTool
  app_structure : Option AppStructure := none
  page_spec : Option PageSpec := none
  flow_connections : Option (List FlowConnection) := none
deriving DecidableEq, Repr

/-- Source `ProjectInfo` dataclass. -/
structure ProjectInfo where
  name : String
  description : String
  tech_stack : List String
  target_audience : String
  requirements : List String
  industry : Option String := none
  complexity_level : String := "medium"
deriving DecidableEq, Repr

/-- Source `PromptingStrategy` dataclass. -/
structure PromptingStrategy where
  strategy_type : String
  template : String
  use_cases : List String
  effectiveness_score : ℚ
  async_aware : Bool := false
  requires_confirmation : Bool := false
  security_focused : Bool := false
deriving DecidableEq, Repr

/-- Values of the heterogeneous `prompting_guidelines : Dict[str, Any]` field:
the sources only ever store booleans, strings or lists of strings there. -/
inductive GuideVal
  | b (v : Bool)
  | s (v : String)
  | ls (v : List String)
deriving DecidableEq, Repr

/-- Source `ToolProfile` dataclass. -/
structure ToolProfile where
  tool_name : String
  format : String
  tone : String
  preferred_use_cases : List String
  few_shot_examples : List (String × String)
  prompting_guidelines : List (String × GuideVal)
  categories : List String
  stage_templates : List (PromptStage × String)
  vector_namespace : String
  prompting_strategies : List PromptingStrategy := []
  constraints : List String := []
  optimization_tips : List String := []
  common_pitfalls : List String := []
deriving DecidableEq, Repr

/-- Source `PromptResult` dataclass.  The `regeneration_context : Dict[str, Any]`
payload is carried as string key/value pairs (its entries are only ever
echoed back to the caller, never inspected). -/
structure PromptResult where
  prompt : String
  stage : PromptStage
  tool : SupportedTool
  confidence_score : ℚ
  sources : List String
  next_suggested_stage : Option PromptStage := none
  regeneration_context : List (String × String) := []
  enhancement_suggestions : Option (List String) := none
  applied_strategy : Option String := none
  tool_specific_optimizations : Option (List String) := none

/-- A langchain `Document` as the sources use it: its text plus the two
metadata keys the generators read (`source` and `tool`). -/
structure Document where
  page_content : String
  source : Option String := none
  tool : String := ""
deriving DecidableEq, Repr

/-- The external Chroma vector store, kept opaque: for each query string it
yields some ranking of the indexed chunks (`rank` for plain
`similarity_search`, `rankScored` for `similarity_search_with_relevance_scores`,
ordered best-first by the engine). -/
structure VectorStore where
  rank : String → List Document
  rankScored : String → List (Document × ℚ)

/-- Chroma `similarity_search(query, k, filter)`: the engine's documented
contract — restrict to chunks matching the metadata filter when one is
given, then return (up to) the `k` best. -/
def similarity_search (vs : VectorStore) (q : String) (k : Nat)
    (filt : Option String) : List Document :=
  match filt with
  | some t => ((vs.rank q).filter (fun d => d.tool == t)).take k
  | none => (vs.rank q).take k

/-- Chroma `similarity_search_with_relevance_scores(query, k)` (no filter is
passed at its call sites in this repository). -/
def similarity_search_with_relevance_scores (vs : VectorStore) (q : String)
    (k : Nat) : List (Document × ℚ) :=
  (vs.rankScored q).take k

/-- Result of a raw `chromadb` `collection.query(...)` call: its
`documents` field, a list of one document-list per query text. -/
structure ChromaQueryResult where
  documents : List (List String)
deriving DecidableEq, Repr

/-- Association-list lookup standing in for Python `dict.get`. -/
def lookupKey {α β : Type} [DecidableEq α] : List (α × β) → α → Option β
  | [], _ => none
  | (k, v) :: rest, a => if k = a then some v else lookupKey rest a

end RAG

/-! ## `MultiToolPromptGenerator` (`src/src/generators/basic_generator.py`) -/

namespace MultiTool

open RAG

/-- Source `_get_stage_templates`. -/
def get_stage_templates (_tool : SupportedTool) : List (PromptStage × String) :=
  [(PromptStage.app_skeleton, "stage_app_skeleton.md"),
   (PromptStage.page_ui, "stage_page_ui.md"),
   (PromptStage.flow_connections, "stage_flow_connections.md"),
   (PromptStage.feature_specific, "stage_feature_specific.md"),
   (PromptStage.debugging, "stage_debugging.md"),
   (PromptStage.optimization, "stage_optimization.md")]

/-- Source `_get_default_tool_profile`. -/
def get_default_tool_profile (tool : SupportedTool) : ToolProfile :=
  { tool_name := pyTitle tool.value
    format := "markdown"
    tone := "professional and helpful"
    preferred_use_cases := ["app development", "ui design", "prototyping"]
    few_shot_examples := []
    prompting_guidelines :=
      [("structure", GuideVal.ls ["Be clear and specific", "Include context", "Define requirements"]),
       ("best_practices", GuideVal.ls ["Use modern patterns", "Consider accessibility", "Optimize performance"]),
       ("avoid", GuideVal.ls ["Vague instructions", "Missing context", "Overly complex requests"])]
    categories := ["development", "design", "prototype"]
    stage_templates := get_stage_templates tool
    vector_namespace := tool.value ++ "_docs" }

/-- The `template_context` dict assembled in `generate_prompt` and handed to
`template.render`. -/
structure TemplateContext where
  task_context : TaskContext
  project_info : ProjectInfo
  tool_profile : ToolProfile
  context_docs : List Document
  guidelines : String
  examples : List (String × String)
  stage : PromptStage
  page_spec : Option PageSpec
  app_structure : Option AppStructure
  flow_connections : Option (List FlowConnection)

/-- A loaded Jinja template: rendering the template context either yields
prompt text or fails with an exception message. -/
def RenderFn : Type := TemplateContext → Except String String

/-- The state a constructed `MultiToolPromptGenerator` carries: its tool
profiles, the per-tool vector stores that could be loaded, and the Jinja
environment (a template name either resolves to a loaded template or
lookup raises, which `get_template` surfaces as `none` here). -/
structure GenEnv where
  tool_profiles : List (SupportedTool × ToolProfile)
  vector_stores : List (SupportedTool × VectorStore)
  templates : String → Option RenderFn

/-- The `score > 0.6` relevance filter applied to
`similarity_search_with_relevance_scores` output in `get_relevant_context`
(`relevant_docs = [doc for doc, score in results if score > 0.6]`). -/
def relevance_filter (results : List (Document × ℚ)) : List Document :=
  (results.filter (fun p => (0.6 : ℚ) < p.2)).map Prod.fst

/-- Source `get_relevant_context`: no vector store for the tool means an empty
result (and a search exception is likewise caught and returns `[]`). -/
def get_relevant_context (env : GenEnv) (tool : SupportedTool)
    (stage : PromptStage) (query : String) (task_type : String := "") :
    List Document :=
  match lookupKey env.vector_stores tool with
  | none => []
  | some vs =>
    let enhanced_query := pyStrip (stage.value ++ " " ++ task_type ++ " " ++ query)
    let results := similarity_search_with_relevance_scores vs enhanced_query 5
    relevance_filter results

/-- Source `_extract_guidelines`. -/
def extract_guidelines (context_docs : List Document) : String :=
  let guidelines := (context_docs.map (fun doc =>
    let content := pyLower doc.page_content
    if ["guideline", "best practice", "recommendation"].any
        (fun kw => pyContains kw content) then
      (doc.page_content.splitOn ".").filterMap (fun sentence =>
        if ["should", "must", "recommend", "avoid"].any
            (fun kw => pyContains kw (pyLower sentence)) then
          some sentence.trim
        else none)
    else [])).flatten
  String.intercalate "\n"
    (((guidelines.take 5).filter (fun g => g ≠ "")).map (fun g => "- " ++ g))

/-- Source `_get_relevant_examples`. -/
def get_relevant_examples (tool_profile : ToolProfile) (task_type : String) :
    List (String × String) :=
  let relevant_examples := tool_profile.few_shot_examples.filter
    (fun ex => pyContains (pyLower task_type) (pyLower ex.1))
  if relevant_examples.isEmpty then tool_profile.few_shot_examples.take 2
  else relevant_examples

/-- Source `_calculate_confidence_score`. -/
def calculate_confidence_score (context_docs : List Document)
    (task_context : TaskContext) (tool_profile : ToolProfile) : ℚ :=
  let score : ℚ := 0.5
  let score := if !context_docs.isEmpty then
      (if 3 ≤ context_docs.length then score + 0.2 + 0.1 else score + 0.2)
    else score
  let score := if (tool_profile.preferred_use_cases.map pyLower).contains
      (pyLower task_context.task_type) then score + 0.2 else score
  let score := if !task_context.technical_requirements.isEmpty then score + 0.1 else score
  let score := if !task_context.ui_requirements.isEmpty then score + 0.1 else score
  min 1 score

/-- Source `_suggest_next_stage` (the `stage_progression` dict, whose
`OPTIMIZATION` entry is an explicit `None`, read with `.get`). -/
def suggest_next_stage (current_stage : PromptStage)
    (_task_context : TaskContext) : Option PromptStage :=
  match current_stage with
  | .app_skeleton => some .page_ui
  | .page_ui => some .flow_connections
  | .flow_connections => some .feature_specific
  | .feature_specific => some .optimization
  | .debugging => some .optimization
  | .optimization => none

/-- The fixed-format fallback text built in `_generate_fallback_prompt`. -/
def fallback_prompt_text (task_context : TaskContext)
    (project_info : ProjectInfo) (tool_profile : ToolProfile)
    (stage : PromptStage) : String :=
  "# " ++ pyTitle task_context.task_type ++ " - " ++ project_info.name
    ++ "\n\n**Tool:** " ++ tool_profile.tool_name
    ++ "\n**Stage:** " ++ String.replace (pyTitle stage.value) "_" " "
    ++ "\n\n## Project Overview\n" ++ project_info.description
    ++ "\n\n**Technology Stack:** " ++ String.intercalate ", " project_info.tech_stack
    ++ "\n**Target Audience:** " ++ project_info.target_audience
    ++ "\n\n## Task Description\n" ++ task_context.description
    ++ "\n\n## Requirements\n\n### Technical Requirements\n"
    ++ bulletLines task_context.technical_requirements
    ++ "\n\n### UI/UX Requirements  \n"
    ++ bulletLines task_context.ui_requirements
    ++ "\n\n### Constraints\n"
    ++ bulletLines task_context.constraints
    ++ "\n\n## Implementation Guidelines\n\n- Follow " ++ tool_profile.tool_name
    ++ " best practices\n- Ensure responsive design for all devices\n- Implement proper error handling and loading states\n- Focus on user experience and accessibility\n- Use modern development patterns\n\n## Success Criteria\n\n- Functional implementation that meets requirements\n- Clean, maintainable code structure\n- Responsive design across device sizes\n- Accessible interface following WCAG guidelines\n- Performance optimized for target users\n\n---\n\nPlease implement this using "
    ++ tool_profile.tool_name ++ " following the " ++ tool_profile.tone
    ++ " approach with " ++ tool_profile.format ++ " output."

/-- Source `_generate_fallback_prompt`. -/
def generate_fallback_prompt (env : GenEnv) (task_context : TaskContext)
    (project_info : ProjectInfo) (tool : SupportedTool) (stage : PromptStage) :
    PromptResult :=
  let tool_profile :=
    (lookupKey env.tool_profiles tool).getD (get_default_tool_profile tool)
  { prompt := fallback_prompt_text task_context project_info tool_profile stage
    stage := stage
    tool := tool
    confidence_score := 0.4
    sources := []
    next_suggested_stage := suggest_next_stage stage task_context
    regeneration_context := [("fallback", "True")] }

/-- The template name selected in `generate_prompt`:
`tool_profile.stage_templates.get(target_stage, "lovable_task_template.md")`. -/
def selected_template_name (tool_profile : ToolProfile) (stage : PromptStage) :
    String :=
  (lookupKey tool_profile.stage_templates stage).getD "lovable_task_template.md"

/-- The retrieval performed by `generate_prompt` before rendering. -/
def context_docs_for (env : GenEnv) (task_context : TaskContext)
    (target_tool : SupportedTool) (target_stage : PromptStage) : List Document :=
  get_relevant_context env target_tool target_stage
    (task_context.task_type ++ " " ++ task_context.description)
    task_context.task_type

/-- The `template_context` dict assembled in `generate_prompt`. -/
def build_template_context (task_context : TaskContext)
    (project_info : ProjectInfo) (tool_profile : ToolProfile)
    (context_docs : List Document) (target_stage : PromptStage) :
    TemplateContext :=
  { task_context := task_context
    project_info := project_info
    tool_profile := tool_profile
    context_docs := context_docs
    guidelines := extract_guidelines context_docs
    examples := get_relevant_examples tool_profile task_context.task_type
    stage := target_stage
    page_spec := task_context.page_spec
    app_structure := task_context.app_structure
    flow_connections := task_context.flow_connections }

/-- Source `generate_prompt`.  An unsupported tool raises `ValueError`
(modelled as `Except.error`); template-lookup and render failures fall
back to `_generate_fallback_prompt`. -/
def generate_prompt (env : GenEnv) (task_context : TaskContext)
    (project_info : ProjectInfo) (stage : Option PromptStage := none)
    (tool : Option SupportedTool := none) : Except String PromptResult :=
  let target_tool := tool.getD task_context.target_tool
  let target_stage := stage.getD task_context.stage
  match lookupKey env.tool_profiles target_tool with
  | none => .error ("Tool " ++ target_tool.value ++ " not supported")
  | some tool_profile =>
    let context_docs := context_docs_for env task_context target_tool target_stage
    let template_name := selected_template_name tool_profile target_stage
    match env.templates template_name with
    | none =>
      .ok (generate_fallback_prompt env task_context project_info target_tool target_stage)
    | some template =>
      match template (build_template_context task_context project_info
          tool_profile context_docs target_stage) with
      | .error _ =>
        .ok (generate_fallback_prompt env task_context project_info target_tool target_stage)
      | .ok prompt =>
        .ok { prompt := prompt
              stage := target_stage
              tool := target_tool
              confidence_score :=
                calculate_confidence_score context_docs task_context tool_profile
              sources := context_docs.map (fun doc => doc.source.getD "unknown")
              next_suggested_stage := suggest_next_stage target_stage task_context
              regeneration_context :=
                [("used_template", template_name),
                 ("context_count", toString context_docs.length)] }

end MultiTool

/-! ## `EnhancedMultiToolGenerator` (`src/src/generators/enhanced_generator.py`) -/

namespace Enhanced

open RAG

/-- The Lovable profile hard-coded in `_load_tool_profiles`. -/
def lovable_profile : ToolProfile :=
  { tool_name := "Lovable.dev"
    format := "structured_sections"
    tone := "expert_casual"
    preferred_use_cases :=
      ["react_development", "ui_scaffolding", "supabase_integration",
       "component_optimization", "responsive_design"]
    few_shot_examples :=
      [("Create a task management dashboard",
        "Build a React dashboard with task CRUD operations, filtering, and real-time updates using Supabase. Include responsive design with Tailwind CSS and shadcn/ui components.")]
    prompting_guidelines :=
      [("framework", GuideVal.s "C.L.E.A.R"),
       ("knowledge_base_required", GuideVal.b true),
       ("incremental_development", GuideVal.b true),
       ("mode_awareness", GuideVal.ls ["chat", "default"])]
    categories := ["web_development", "frontend", "fullstack"]
    stage_templates :=
      [(PromptStage.app_skeleton, "lovable_skeleton_template"),
       (PromptStage.page_ui, "lovable_ui_template"),
       (PromptStage.flow_connections, "lovable_flow_template")]
    vector_namespace := "lovable_docs"
    prompting_strategies :=
      [{ strategy_type := "structured"
         template := "Context: {context}\nTask: {task}\nGuidelines: {guidelines}\nConstraints: {constraints}"
         use_cases := ["complex_features", "new_projects"]
         effectiveness_score := 0.9 },
       { strategy_type := "conversational"
         template := "Let\x27s {action}. {description} {technical_details}"
         use_cases := ["feature_additions", "debugging"]
         effectiveness_score := 0.8 }]
    constraints :=
      ["react_typescript_only", "supabase_backend", "tailwind_styling",
       "responsive_required"]
    optimization_tips :=
      ["Use Knowledge Base extensively", "Implement incremental development",
       "Leverage Chat mode for planning", "Be explicit about constraints"]
    common_pitfalls :=
      ["overly_complex_single_prompts", "insufficient_context",
       "ignoring_knowledge_base"] }

/-- The Bolt profile hard-coded in `_load_tool_profiles`. -/
def bolt_profile : ToolProfile :=
  { tool_name := "Bolt.new"
    format := "enhanced_prompts"
    tone := "technical_precise"
    preferred_use_cases :=
      ["rapid_prototyping", "web_applications", "javascript_projects",
       "iterative_development", "code_refinement"]
    few_shot_examples :=
      [("Todo app",
        "Create a React todo application with TypeScript, featuring task creation, editing, deletion, and filtering. Include local storage persistence, responsive design with Tailwind CSS, and accessibility features.")]
    prompting_guidelines :=
      [("enhancement_feature", GuideVal.b true),
       ("file_targeting", GuideVal.b true),
       ("webcontainer_aware", GuideVal.b true),
       ("incremental_changes", GuideVal.b true)]
    categories := ["web_development", "prototyping", "javascript"]
    stage_templates :=
      [(PromptStage.app_skeleton, "bolt_architecture_template"),
       (PromptStage.page_ui, "bolt_component_template"),
       (PromptStage.flow_connections, "bolt_integration_template")]
    vector_namespace := "bolt_docs"
    prompting_strategies :=
      [{ strategy_type := "structured"
         template := "Enhanced detailed prompt with complete specifications and constraints"
         use_cases := ["complex_applications", "production_ready"]
         effectiveness_score := 0.95 }]
    constraints :=
      ["webcontainer_limitations", "browser_compatible_only", "no_native_binaries"]
    optimization_tips :=
      ["Use enhance prompt feature", "Target specific files", "Lock critical files",
       "Break into incremental steps"]
    common_pitfalls :=
      ["context_window_overflow", "too_many_simultaneous_changes",
       "webcontainer_incompatible_requests"] }

/-- Source `_load_tool_profiles`: the registry is keyed by the tool value strings. -/
def tool_profiles : List (String × ToolProfile) :=
  [(SupportedTool.lovable.value, lovable_profile),
   (SupportedTool.bolt.value, bolt_profile)]

/-- Source `_determine_optimal_strategy`. -/
def determine_optimal_strategy (context : TaskContext)
    (_profile : ToolProfile) : String :=
  if context.stage = .app_skeleton then "structured"
  else if 5 < context.technical_requirements.length then "structured"
  else if context.stage = .debugging ∨ context.stage = .optimization then
    "conversational"
  else "conversational"

/-- Source `_generate_lovable_prompt`. -/
def generate_lovable_prompt (context : TaskContext)
    (_query_results : ChromaQueryResult) : String :=
  if context.stage = .app_skeleton then
    "Context: You are building a " ++ context.project_name
      ++ " using Lovable with React, TypeScript, and Supabase.\n\nTask: "
      ++ context.description
      ++ "\n\nGuidelines:\n- Use modern React patterns with TypeScript\n- Implement responsive design with Tailwind CSS\n- Integrate Supabase for backend functionality\n- Follow accessibility best practices\n- Use shadcn/ui components for consistent UI\n\nTechnical Requirements:\n"
      ++ bulletLines context.technical_requirements
      ++ "\n\nUI Requirements:\n"
      ++ bulletLines context.ui_requirements
      ++ "\n\nConstraints:\n"
      ++ bulletLines context.constraints
      ++ "\n\nBefore starting, please confirm you understand the project requirements from the Knowledge Base."
  else
    "Let\x27s " ++ String.replace (pyLower context.task_type) "_" " "
      ++ " for the " ++ context.project_name ++ " project.\n\n"
      ++ context.description
      ++ "\n\nRequirements:\n"
      ++ bulletLines (context.technical_requirements ++ context.ui_requirements)
      ++ "\n\nPlease ensure the implementation maintains consistency with existing components and follows our established patterns."

/-- Source `_generate_bolt_prompt`. -/
def generate_bolt_prompt (context : TaskContext)
    (_query_results : ChromaQueryResult) : String :=
  let base_description :=
    "Create a " ++ String.replace (pyLower context.task_type) "_" " "
      ++ " for " ++ context.project_name
      ++ ".\n\nCore Functionality:\n" ++ context.description
      ++ "\n\nTechnical Specifications:\n"
      ++ bulletLines context.technical_requirements
      ++ "\n\nUI/UX Requirements:\n"
      ++ bulletLines context.ui_requirements
      ++ "\n\nConstraints:\n"
      ++ bulletLines context.constraints
  if context.stage = .app_skeleton then
    base_description
      ++ "\n\nArchitecture Requirements:\n- Modern web application structure\n- Component-based organization\n- Proper state management\n- Responsive design implementation\n- Performance optimization"
  else base_description

/-- Source `_generate_generic_prompt`. -/
def generate_generic_prompt (context : TaskContext)
    (_query_results : ChromaQueryResult) : String :=
  "Project: " ++ context.project_name
    ++ "\nTask: " ++ pyTitle (String.replace context.task_type "_" " ")
    ++ "\n\nDescription: " ++ context.description
    ++ "\n\nTechnical Requirements:\n"
    ++ bulletLines context.technical_requirements
    ++ "\n\nUI Requirements:\n"
    ++ bulletLines context.ui_requirements
    ++ "\n\nConstraints:\n"
    ++ bulletLines context.constraints
    ++ "\n\nPlease implement this feature following best practices for "
    ++ context.target_tool.value ++ "."

/-- Source `_generate_base_prompt` dispatch. -/
def generate_base_prompt (context : TaskContext) (profile : ToolProfile)
    (query_results : ChromaQueryResult) : String :=
  if profile.tool_name = "Lovable.dev" then
    generate_lovable_prompt context query_results
  else if profile.tool_name = "Bolt.new" then
    generate_bolt_prompt context query_results
  else generate_generic_prompt context query_results

/-- Source `_apply_tool_optimizations`. -/
def apply_tool_optimizations (base_prompt : String) (context : TaskContext)
    (profile : ToolProfile) : String :=
  if profile.tool_name = "Lovable.dev" then
    let optimized := base_prompt
    let optimized := if context.stage = .debugging then
        optimized ++ "\n\nPlease use Chat mode to discuss the issue before implementing changes."
      else optimized
    let optimized := if context.ui_requirements.contains "responsive" then
        optimized ++ "\n\nEnsure mobile-first responsive design using Tailwind breakpoints (sm:, md:, lg:)."
      else optimized
    optimized
  else if profile.tool_name = "Bolt.new" then
    let optimized := "[Note: Consider using the Enhance Prompt feature â­ for this request]\n\n" ++ base_prompt
    let optimized := if 3 < context.technical_requirements.length then
        optimized ++ "\n\nSuggestion: Break this into smaller, incremental changes for better results."
      else optimized
    optimized
  else base_prompt

/-- Source `_calculate_confidence_score`. -/
def calculate_confidence_score (context : TaskContext)
    (query_results : ChromaQueryResult) (profile : ToolProfile) : ℚ :=
  let score : ℚ := 0.5
  let docs_signal : Bool :=
    match query_results.documents with
    | [] => false
    | d0 :: _ => !d0.isEmpty
  let score := if docs_signal then score + 0.2 else score
  let score := if !context.technical_requirements.isEmpty
      && !context.ui_requirements.isEmpty then score + 0.2 else score
  let score := if profile.preferred_use_cases.contains context.task_type then
      score + 0.1 else score
  min score 1

/-- Source `_generate_enhancement_suggestions`. -/
def generate_enhancement_suggestions (context : TaskContext)
    (profile : ToolProfile) : List String :=
  (if context.technical_requirements.isEmpty then
     ["Add specific technical requirements for better results"] else [])
  ++ (if context.constraints.isEmpty then
     ["Define constraints to avoid scope creep"] else [])
  ++ (if profile.tool_name = "Lovable.dev" ∧ context.stage = .app_skeleton then
     ["Consider setting up Knowledge Base with project requirements"] else [])
  ++ (if profile.tool_name = "Bolt.new" then
     ["Use the enhance prompt feature for more detailed specifications"] else [])

/-- Source `_suggest_next_stage` (the enhanced generator's `stage_progression`
dict has no entry for `DEBUGGING` or `OPTIMIZATION`, so `.get` yields
`None` for those stages). -/
def suggest_next_stage (context : TaskContext) : Option PromptStage :=
  match context.stage with
  | .app_skeleton => some .page_ui
  | .page_ui => some .flow_connections
  | .flow_connections => some .feature_specific
  | .feature_specific => some .optimization
  | .debugging => none
  | .optimization => none

/-- Source `generate_enhanced_prompt`.  The chromadb `collection.query(...)`
response is passed in as `query_results` (the vector database is an
external dependency).  An unsupported tool raises `ValueError`. -/
def generate_enhanced_prompt (context : TaskContext)
    (query_results : ChromaQueryResult) (strategy : String := "auto")
    (include_optimizations : Bool := true) : Except String PromptResult :=
  match lookupKey tool_profiles context.target_tool.value with
  | none => .error ("Unsupported tool: " ++ context.target_tool.pyStr)
  | some tool_profile =>
    let strategy := if strategy = "auto" then
        determine_optimal_strategy context tool_profile
      else strategy
    let base_prompt := generate_base_prompt context tool_profile query_results
    let optimized_prompt := if include_optimizations then
        apply_tool_optimizations base_prompt context tool_profile
      else base_prompt
    let confidence := calculate_confidence_score context query_results tool_profile
    let enhancement_suggestions := generate_enhancement_suggestions context tool_profile
    let next_stage := suggest_next_stage context
    .ok { prompt := optimized_prompt
          stage := context.stage
          tool := context.target_tool
          confidence_score := confidence
          sources := (query_results.documents.head?.getD [])
          next_suggested_stage := next_stage
          enhancement_suggestions := some enhancement_suggestions
          applied_strategy := some strategy
          tool_specific_optimizations := some tool_profile.optimization_tips }

end Enhanced

/-! ## `GeminiToolSpecificPromptGenerator`
(`src/src/generators/gemini_tool_generator.py`) -/

namespace GeminiGen

open RAG

/-- The `ToolConfig` dataclass of the tool-specific generators.  The
`strategies : Dict[str, Any]` field is only ever read through
`.get(key)` truthiness tests, so it is carried as boolean flags. -/
structure ToolConfig where
  name : String
  format : String
  tone : String
  framework : String
  use_cases : List String
  strategies : List (String × Bool)
  stages : List String
  components : List String
deriving DecidableEq, Repr

/-- The string-typed `TaskContext` dataclass of
`gemini_tool_generator.py` (distinct from the core enum-typed one). -/
structure TaskContext where
  task_type : String
  project_name : String
  description : String
  tool : String
  stage : String
  technical_requirements : List String
  ui_requirements : List String
  constraints : List String
  page_type : Option String := none
  component_type : Option String := none
deriving DecidableEq, Repr

/-- The string-typed `ProjectInfo` dataclass of
`gemini_tool_generator.py`. -/
structure ProjectInfo where
  name : String
  description : String
  tech_stack : List String
  target_audience : String
  requirements : List String
  tool : String
deriving DecidableEq, Repr

/-- The state a constructed generator carries: the per-tool configs read
from `config/tools/*.yaml` and the (possibly absent) vector store. -/
structure GenState where
  tools_config : List (String × ToolConfig)
  vector_store : Option VectorStore

/-- Source `self.available_tools = list(self.tools_config.keys())`. -/
def available_tools (st : GenState) : List String :=
  st.tools_config.map Prod.fst

/-- The default `lovable` config written by `_create_default_tools_config`. -/
def default_lovable_config : ToolConfig :=
  { name := "Lovable"
    format := "structured"
    tone := "friendly_professional"
    framework := "React/Next.js"
    use_cases := ["web_apps", "prototypes", "mvp"]
    strategies := [("step_by_step", true), ("context_first", true), ("examples", true)]
    stages := ["planning", "design", "implementation", "testing"]
    components := ["ui", "routing", "state", "api"] }

/-- The default `cursor` config written by `_create_default_tools_config`. -/
def default_cursor_config : ToolConfig :=
  { name := "Cursor"
    format := "conversational"
    tone := "technical"
    framework := "Multi-language IDE"
    use_cases := ["code_editing", "refactoring", "debugging"]
    strategies := [("context_aware", true), ("incremental", true), ("file_aware", true)]
    stages := ["coding", "testing", "debugging", "optimization"]
    components := ["code", "tests", "documentation", "configs"] }

/-- Source `_get_default_tool_config`: the generic fallback for unknown tools. -/
def get_default_tool_config (tool_name : String) : ToolConfig :=
  { name := pyTitle tool_name
    format := "structured"
    tone := "professional"
    framework := "General development"
    use_cases := ["general_development"]
    strategies := [("step_by_step", true)]
    stages := ["planning", "implementation", "testing"]
    components := ["ui", "logic", "data"] }

/-- The documents the `similarity_search` call inside
`get_relevant_context` yields, before page contents are extracted: the
metadata filter is only passed when the tool is among the configured
tools. -/
def retrieved_docs (st : GenState) (query : String) (tool : String)
    (k : Nat := 5) : List Document :=
  match st.vector_store with
  | none => []
  | some vs =>
    let enhanced_query := tool ++ " " ++ query
    let filt := if (available_tools st).contains tool then some tool else none
    similarity_search vs enhanced_query k filt

/-- Source `get_relevant_context`: extracts the page contents (a search
exception is caught and returns `[]`; the store itself is total here). -/
def get_relevant_context (st : GenState) (query : String) (tool : String)
    (k : Nat := 5) : List String :=
  (retrieved_docs st query tool k).map (fun doc => doc.page_content)

/-- The tool-config resolution at the top of `generate_prompt`:
`self.tools_config.get(tool)` with the default config as fallback. -/
def resolve_tool_config (st : GenState) (tool : String) : ToolConfig :=
  match lookupKey st.tools_config tool with
  | some c => c
  | none => get_default_tool_config tool

/-- Source `_build_tool_header`. -/
def build_tool_header (tool_config : ToolConfig)
    (task_context : TaskContext) : String :=
  "# " ++ tool_config.name ++ " Prompt Generator\n\n**Tool**: "
    ++ tool_config.name ++ "\n**Framework**: " ++ tool_config.framework
    ++ "\n**Task Type**: " ++ task_context.task_type
    ++ "\n**Stage**: " ++ task_context.stage ++ "\n\n---"

/-- Source `_build_project_context`. -/
def build_project_context (project_info : ProjectInfo) : String :=
  let tech_stack := if project_info.tech_stack.isEmpty then "Not specified"
    else String.intercalate ", " project_info.tech_stack
  let requirements := bulletLines project_info.requirements
  "## Project Information\n\n**Name**: " ++ project_info.name
    ++ "\n**Description**: " ++ project_info.description
    ++ "\n**Tech Stack**: " ++ tech_stack
    ++ "\n**Target Audience**: " ++ project_info.target_audience
    ++ "\n\n**Requirements**:\n" ++ requirements

/-- Source `_build_task_context`. -/
def build_task_context (task_context : TaskContext) : String :=
  "## Task Context\n\n**Description**: " ++ task_context.description
    ++ "\n\n**Technical Requirements**:\n"
    ++ bulletLines task_context.technical_requirements
    ++ "\n\n**UI Requirements**:\n"
    ++ bulletLines task_context.ui_requirements
    ++ "\n\n**Constraints**:\n"
    ++ bulletLines task_context.constraints

/-- Source `_build_documentation_context`. -/
def build_documentation_context (context : List String) : String :=
  let context_text := String.intercalate "\n\n"
    (context.enum.map (fun p => "### Context " ++ toString (p.1 + 1) ++ "\n" ++ p.2))
  "## Relevant Documentation\n\n" ++ context_text

/-- Source `_build_strategy_section`. -/
def build_strategy_section (tool_config : ToolConfig)
    (_task_context : TaskContext) : String :=
  let strategies :=
    (if (lookupKey tool_config.strategies "step_by_step").getD false then
       ["- Break down the task into clear, actionable steps"] else [])
    ++ (if (lookupKey tool_config.strategies "context_first").getD false then
       ["- Provide full context before implementation details"] else [])
    ++ (if (lookupKey tool_config.strategies "examples").getD false then
       ["- Include relevant examples and code snippets"] else [])
    ++ (if (lookupKey tool_config.strategies "incremental").getD false then
       ["- Focus on incremental improvements and iterations"] else [])
  let strategy_text := if strategies.isEmpty then
      "- Follow standard development practices"
    else String.intercalate "\n" strategies
  "## Implementation Strategy\n\n" ++ strategy_text
    ++ "\n\n**Tone**: " ++ tool_config.tone
    ++ "\n**Supported Components**: " ++ String.intercalate ", " tool_config.components

/-- Source `_build_output_format`. -/
def build_output_format (tool_config : ToolConfig) : String :=
  "## Expected Output\n\nPlease provide a " ++ tool_config.format
    ++ " response that includes:\n\n1. **Implementation Plan**: Step-by-step approach\n2. **Code Structure**: File organization and architecture\n3. **Key Components**: Main features and functionality\n4. **Integration Points**: How components work together\n5. **Testing Strategy**: Validation and quality assurance\n6. **Next Steps**: Immediate actions to take\n\nFormat your response in a clear, "
    ++ tool_config.tone ++ " tone suitable for " ++ tool_config.name ++ "."

/-- The prompt assembly in `generate_prompt` after the tool config is
resolved. -/
def assemble (st : GenState) (tool_config : ToolConfig)
    (project_info : ProjectInfo) (task_context : TaskContext) : String :=
  let context_query := task_context.description ++ " " ++ task_context.task_type
  let relevant_context := get_relevant_context st context_query task_context.tool 3
  let prompt_sections :=
    [build_tool_header tool_config task_context,
     build_project_context project_info,
     build_task_context task_context]
    ++ (if relevant_context.isEmpty then []
        else [build_documentation_context relevant_context])
    ++ [build_strategy_section tool_config task_context,
        build_output_format tool_config]
  String.intercalate "\n\n" prompt_sections

/-- Source `generate_prompt`: a total function — an unknown tool resolves to the
default config instead of raising. -/
def generate_prompt (st : GenState) (project_info : ProjectInfo)
    (task_context : TaskContext) : String :=
  assemble st (resolve_tool_config st task_context.tool) project_info task_context

end GeminiGen

/-! ## `ToolSpecificPromptGenerator`
(`src/src/generators/tool_specific_generator.py`) -/

namespace ToolSpec

open RAG

/-- The state a constructed `ToolSpecificPromptGenerator` carries. -/
structure GenState where
  tools_config : List (String × GeminiGen.ToolConfig)
  vector_store : Option VectorStore

/-- Source `get_relevant_context`: always filters the similarity search by
`{"tool": tool}`; no vector store means an empty result. -/
def get_relevant_context (st : GenState) (tool : String) (task_type : String)
    (description : String) (stage : Option String := none)
    (num_docs : Nat := 5) : List Document :=
  match st.vector_store with
  | none => []
  | some vs =>
    let search_query := task_type ++ " " ++ description
    let search_query := match stage with
      | some s => search_query ++ " " ++ s
      | none => search_query
    similarity_search vs search_query num_docs (some tool)

/-- Source `_determine_doc_type`: ordered keyword rules over the lowercased
filename, first match wins, default `"documentation"`. -/
def determine_doc_type (filename : String) : String :=
  let filename_lower := pyLower filename
  if pyContains "comprehensive" filename_lower then "comprehensive_guide"
  else if pyContains "prompt" filename_lower then "system_prompt"
  else if pyContains "tool" filename_lower then "tool_config"
  else if pyContains "guide" filename_lower then "user_guide"
  else if pyContains "pattern" filename_lower then "design_patterns"
  else if pyContains "api" filename_lower then "api_docs"
  else "documentation"

end ToolSpec

/-! ## Chunk categorisation (`src/src/database/create_lovable_database.py`) -/

namespace LovableDB

/-- The per-chunk category/tags assignment over the chunk's source
filename, from `create_database` (`# Categorize based on filename`):
ordered keyword rules over the lowercased name, first match wins,
default `("general", ["general"])`. -/
def categorize_chunk (source_file : String) : String × List String :=
  if pyContains "prompting" (pyLower source_file) then
    ("prompting", ["best-practices", "guidelines", "structure"])
  else if pyContains "ui_design" (pyLower source_file) then
    ("ui_design", ["ui", "ux", "design", "components", "responsive"])
  else if pyContains "api_integration" (pyLower source_file) then
    ("integration", ["api", "integration", "authentication", "http"])
  else if pyContains "debugging" (pyLower source_file) then
    ("debugging", ["debugging", "troubleshooting", "performance", "testing"])
  else ("general", ["general"])

end LovableDB

/-! ## Query script (`src/src/database/query_data_gemini.py`) -/

namespace QueryData

open RAG

/-- The retrieval-to-context step of `main`: scored results come back from
`similarity_search_with_relevance_scores`; if there are none, or the very
best scores below `0.3`, the whole set is treated as "no relevant
context" (`Unable to find matching results.`) and no prompt is built;
otherwise all retrieved chunks are joined into the context block. -/
def query_context : List (Document × ℚ) → Option String
  | [] => none
  | (d, s) :: rest =>
    if s < (0.3 : ℚ) then none
    else some (String.intercalate "\n\n---\n\n"
      (((d, s) :: rest).map (fun p => p.1.page_content)))

end QueryData

/-! ## Generic first-match rule evaluator (for the claims about
filename-keyword categorisation) -/

/-- First-match-wins evaluation of an ordered keyword→category rule list
against an (already lowercased) filename. -/
def assignByRules (rules : List (String × String)) (dflt : String)
    (filename_lower : String) : String :=
  match rules with
  | [] => dflt
  | (kw, cat) :: rest =>
    if pyContains kw filename_lower then cat
    else assignByRules rest dflt filename_lower

/-- The ordered rule list of `ToolSpec.determine_doc_type`. -/
def docTypeRules : List (String × String) :=
  [("comprehensive", "comprehensive_guide"),
   ("prompt", "system_prompt"),
   ("tool", "tool_config"),
   ("guide", "user_guide"),
   ("pattern", "design_patterns"),
   ("api", "api_docs")]

/-- The ordered rule list of `LovableDB.categorize_chunk`. -/
def categoryRules : List (String × String) :=
  [("prompting", "prompting"),
   ("ui_design", "ui_design"),
   ("api_integration", "integration"),
   ("debugging", "debugging")]

/-! ## Helper lemmas on strings -/

/-- Appending to a non-empty string on the right keeps it non-empty. -/
theorem str_append_ne_left (a b : String) (h : a ≠ "") : a ++ b ≠ "" := by
  intro hc
  apply h
  apply String.ext
  have hd := congrArg String.data hc
  rw [String.data_append] at hd
  have h2 : a.data = [] := (List.append_eq_nil.mp hd).1
  simpa using h2

/-- Source `sub` occurs (contiguously) inside `s`. -/
def StrContains (s sub : String) : Prop := ∃ l r, s = l ++ sub ++ r

/-- A string contains its own suffix. -/
theorem strContains_suffix (l sub : String) : StrContains (l ++ sub) sub :=
  ⟨l, "", by rw [String.append_empty]⟩

/-- Containment is preserved by appending on the right. -/
theorem strContains_append_right {s sub : String} (t : String)
    (h : StrContains s sub) : StrContains (s ++ t) sub := by
  rcases h with ⟨l, r, rfl⟩
  exact ⟨l, r ++ t, by rw [String.append_assoc (l ++ sub) r t]⟩

/-- Containment is preserved by appending on the left. -/
theorem strContains_append_left {s sub : String} (t : String)
    (h : StrContains s sub) : StrContains (t ++ s) sub := by
  rcases h with ⟨l, r, rfl⟩
  refine ⟨t ++ l, r, ?_⟩
  rw [String.append_assoc (t ++ l) sub r, String.append_assoc t l (sub ++ r),
    String.append_assoc l sub r]

/-! ## Confidence-score bounds shared by several claims -/

/-- The basic generator's confidence score never drops below the `0.5`
base: every branch only adds a non-negative bonus. -/
theorem basic_confidence_ge_base (context_docs : List RAG.Document)
    (task_context : RAG.TaskContext) (tool_profile : RAG.ToolProfile) :
    (0.5 : ℚ) ≤ MultiTool.calculate_confidence_score context_docs task_context tool_profile := by
  simp only [MultiTool.calculate_confidence_score]
  apply le_min
  · norm_num
  · split_ifs <;> norm_num

/-- The enhanced generator's confidence score never drops below the `0.5`
base. -/
theorem enhanced_confidence_ge_base (context : RAG.TaskContext)
    (query_results : RAG.ChromaQueryResult) (profile : RAG.ToolProfile) :
    (0.5 : ℚ) ≤ Enhanced.calculate_confidence_score context query_results profile := by
  simp only [Enhanced.calculate_confidence_score]
  apply le_min
  · split_ifs <;> norm_num
  · norm_num

/-! ## C7 -/

/-- C7: the next-suggested-stage lookup is a fixed forward-only function:
in both the basic and the enhanced generator, `app_skeleton` maps to
`page_ui` and `optimization` maps to no next stage, for every task
context. -/
theorem c7_next_stage_progression (task_context : RAG.TaskContext) :
    MultiTool.suggest_next_stage RAG.PromptStage.app_skeleton task_context
        = some RAG.PromptStage.page_ui
    ∧ MultiTool.suggest_next_stage RAG.PromptStage.optimization task_context = none
    ∧ (task_context.stage = RAG.PromptStage.app_skeleton →
        Enhanced.suggest_next_stage task_context = some RAG.PromptStage.page_ui)
    ∧ (task_context.stage = RAG.PromptStage.optimization →
        Enhanced.suggest_next_stage task_context = none) := by
  refine ⟨rfl, rfl, ?_, ?_⟩ <;>
    · intro h
      simp [Enhanced.suggest_next_stage, h]

/-- A sample skeleton-stage task context. -/
def sampleSkeletonCtx : RAG.TaskContext :=
  { task_type := "build complete application"
    project_name := "TaskMaster Pro"
    description := "A comprehensive task management application"
    stage := RAG.PromptStage.app_skeleton
    technical_requirements := ["Next.js 14 with App Router"]
    ui_requirements := ["Dark mode support"]
    constraints := ["WCAG 2.1 accessibility compliance"]
    target_tool := RAG.SupportedTool.lovable }

/-- Witness for C7 at a concrete skeleton-stage task context. -/
theorem c7_next_stage_progression_witness :
    MultiTool.suggest_next_stage RAG.PromptStage.app_skeleton sampleSkeletonCtx
        = some RAG.PromptStage.page_ui
    ∧ MultiTool.suggest_next_stage RAG.PromptStage.optimization sampleSkeletonCtx = none
    ∧ Enhanced.suggest_next_stage sampleSkeletonCtx = some RAG.PromptStage.page_ui :=
  ⟨(c7_next_stage_progression sampleSkeletonCtx).1,
   (c7_next_stage_progression sampleSkeletonCtx).2.1,
   (c7_next_stage_progression sampleSkeletonCtx).2.2.1 rfl⟩

/-! ## C3 -/

/-- C3: for every combination of input signals — context documents present
or absent and of any count, task type matching the preferred use cases or
not, technical/UI requirements present or empty — both confidence-score
computations stay inside `[0, 1]`. -/
theorem c3_confidence_in_unit_interval (context_docs : List RAG.Document)
    (task_context : RAG.TaskContext) (tool_profile : RAG.ToolProfile)
    (econtext : RAG.TaskContext) (query_results : RAG.ChromaQueryResult)
    (eprofile : RAG.ToolProfile) :
    (0 ≤ MultiTool.calculate_confidence_score context_docs task_context tool_profile
      ∧ MultiTool.calculate_confidence_score context_docs task_context tool_profile ≤ 1)
    ∧ (0 ≤ Enhanced.calculate_confidence_score econtext query_results eprofile
      ∧ Enhanced.calculate_confidence_score econtext query_results eprofile ≤ 1) := by
  refine ⟨⟨?_, ?_⟩, ⟨?_, ?_⟩⟩
  · exact le_trans (by norm_num)
      (basic_confidence_ge_base context_docs task_context tool_profile)
  · exact min_le_left 1 _
  · exact le_trans (by norm_num)
      (enhanced_confidence_ge_base econtext query_results eprofile)
  · exact min_le_right _ 1

/-! ## C10 -/

/-- C10: on the non-fallback generation path the confidence score is the
`0.5` base plus non-negative bonuses clipped at `1.0`, so it is at least
`0.5` and in particular strictly greater than the fixed `0.4` fallback
confidence. -/
theorem c10_nonfallback_confidence_exceeds_fallback
    (context_docs : List RAG.Document) (task_context : RAG.TaskContext)
    (tool_profile : RAG.ToolProfile) (econtext : RAG.TaskContext)
    (query_results : RAG.ChromaQueryResult) (eprofile : RAG.ToolProfile)
    (env : MultiTool.GenEnv) (fctx : RAG.TaskContext) (finfo : RAG.ProjectInfo)
    (ftool : RAG.SupportedTool) (fstage : RAG.PromptStage) :
    (0.5 : ℚ) ≤ MultiTool.calculate_confidence_score context_docs task_context tool_profile
    ∧ (0.5 : ℚ) ≤ Enhanced.calculate_confidence_score econtext query_results eprofile
    ∧ (MultiTool.generate_fallback_prompt env fctx finfo ftool fstage).confidence_score
        < MultiTool.calculate_confidence_score context_docs task_context tool_profile
    ∧ (MultiTool.generate_fallback_prompt env fctx finfo ftool fstage).confidence_score
        < Enhanced.calculate_confidence_score econtext query_results eprofile := by
  have hb := basic_confidence_ge_base context_docs task_context tool_profile
  have he := enhanced_confidence_ge_base econtext query_results eprofile
  have hf : (MultiTool.generate_fallback_prompt env fctx finfo ftool fstage).confidence_score
      = (0.4 : ℚ) := rfl
  refine ⟨hb, he, ?_, ?_⟩
  · rw [hf]; exact lt_of_lt_of_le (by norm_num) hb
  · rw [hf]; exact lt_of_lt_of_le (by norm_num) he

/-! ## C6 -/

/-- C6: retrieval drops results at or below the relevance threshold
(`score > 0.6` filter in the basic generator), so every returned chunk
comes from a result scoring above the threshold; on a descending-ranked
result list the entire set is dropped when the very best result scores
below the cutoff; and in the Gemini query script the whole result set is
treated as "no relevant context" when the best result scores below the
absolute `0.3` cutoff. -/
theorem c6_relevance_threshold_policy (results : List (RAG.Document × ℚ)) :
    (∀ d ∈ MultiTool.relevance_filter results, ∃ s, (d, s) ∈ results ∧ (0.6 : ℚ) < s)
    ∧ (List.Pairwise (fun p q => q.2 ≤ p.2) results →
        ∀ p ∈ results.head?, p.2 < (0.6 : ℚ) →
          MultiTool.relevance_filter results = [])
    ∧ (∀ p ∈ results.head?, p.2 < (0.3 : ℚ) →
        QueryData.query_context results = none) := by
  refine ⟨?_, ?_, ?_⟩
  · intro d hd
    simp only [MultiTool.relevance_filter, List.mem_map, List.mem_filter] at hd
    obtain ⟨p, ⟨hmem, hscore⟩, hfst⟩ := hd
    refine ⟨p.2, ?_, ?_⟩
    · rw [← hfst, Prod.mk.eta]; exact hmem
    · exact of_decide_eq_true hscore
  · intro hpw p hp hlt
    cases results with
    | nil => rfl
    | cons q rest =>
      rw [Option.mem_def] at hp
      have hq : q = p := by
        simpa using hp
      subst hq
      simp only [MultiTool.relevance_filter]
      rw [List.filter_eq_nil_iff.mpr, List.map_nil]
      intro a ha
      simp only [decide_eq_true_eq, not_lt]
      rcases List.mem_cons.mp ha with h | h
      · subst h; exact le_of_lt hlt
      · exact le_of_lt (lt_of_le_of_lt ((List.pairwise_cons.mp hpw).1 a h) hlt)
  · intro p hp hlt
    cases results with
    | nil => rfl
    | cons q rest =>
      rw [Option.mem_def] at hp
      have hq : q = p := by
        simpa using hp
      subst hq
      obtain ⟨d, s⟩ := q
      simp only [QueryData.query_context]
      rw [if_pos hlt]

/-- A sample indexed chunk. -/
def sampleLovableDoc : RAG.Document :=
  { page_content := "Use the Knowledge Base to describe the project before prompting."
    source := some "data/lovable_docs/lovable_prompting_guide.md"
    tool := "lovable" }

/-- A second sample indexed chunk. -/
def sampleBoltDoc : RAG.Document :=
  { page_content := "Break work into incremental changes targeting specific files."
    source := some "data/bolt_docs/bolt_documentation.md"
    tool := "bolt" }

/-- A weak, descending-ranked result list: the best score `0.2` is below
both cutoffs. -/
def weakResults : List (RAG.Document × ℚ) :=
  [(sampleLovableDoc, 0.2), (sampleBoltDoc, 0.1)]

/-- Witness for C6: on the weak result list the basic generator's filter
drops everything and the Gemini query script reports no context. -/
theorem c6_relevance_threshold_policy_witness :
    MultiTool.relevance_filter weakResults = []
    ∧ QueryData.query_context weakResults = none := by
  have h := c6_relevance_threshold_policy weakResults
  refine ⟨?_, ?_⟩
  · exact h.2.1 (by norm_num [weakResults, List.pairwise_cons])
      (sampleLovableDoc, 0.2) rfl (by norm_num)
  · exact h.2.2 (sampleLovableDoc, 0.2) rfl (by norm_num)

/-! ## C9 -/

/-- C9 (amended): both filename categorisers test an ordered fixed list of
keyword substring rules against the lowercased filename with the first
match winning; when no rule matches, the chunk category assignment
defaults to `"general"`, while the document-type assignment of the
tool-specific generator defaults to `"documentation"` (not `"general"`). -/
theorem c9_filename_rules_first_match (filename : String) :
    ToolSpec.determine_doc_type filename
        = assignByRules docTypeRules "documentation" (pyLower filename)
    ∧ (LovableDB.categorize_chunk filename).1
        = assignByRules categoryRules "general" (pyLower filename)
    ∧ ((∀ r ∈ docTypeRules, pyContains r.1 (pyLower filename) = false) →
        ToolSpec.determine_doc_type filename = "documentation")
    ∧ ((∀ r ∈ categoryRules, pyContains r.1 (pyLower filename) = false) →
        (LovableDB.categorize_chunk filename).1 = "general") := by
  refine ⟨rfl, ?_, ?_, ?_⟩
  · simp only [LovableDB.categorize_chunk, categoryRules, assignByRules]
    split_ifs <;> rfl
  · intro h
    have h1 := h ("comprehensive", "comprehensive_guide") (by simp [docTypeRules])
    have h2 := h ("prompt", "system_prompt") (by simp [docTypeRules])
    have h3 := h ("tool", "tool_config") (by simp [docTypeRules])
    have h4 := h ("guide", "user_guide") (by simp [docTypeRules])
    have h5 := h ("pattern", "design_patterns") (by simp [docTypeRules])
    have h6 := h ("api", "api_docs") (by simp [docTypeRules])
    simp [ToolSpec.determine_doc_type, h1, h2, h3, h4, h5, h6]
  · intro h
    have h1 := h ("prompting", "prompting") (by simp [categoryRules])
    have h2 := h ("ui_design", "ui_design") (by simp [categoryRules])
    have h3 := h ("api_integration", "integration") (by simp [categoryRules])
    have h4 := h ("debugging", "debugging") (by simp [categoryRules])
    simp [LovableDB.categorize_chunk, h1, h2, h3, h4]

/-- Witness for C9 at a concrete no-keyword filename. -/
theorem c9_filename_rules_first_match_witness :
    ToolSpec.determine_doc_type "readme.xyz" = "documentation"
    ∧ (LovableDB.categorize_chunk "readme.xyz").1 = "general" :=
  ⟨(c9_filename_rules_first_match "readme.xyz").2.2.1 (by decide),
   (c9_filename_rules_first_match "readme.xyz").2.2.2 (by decide)⟩

/-- Counterexample for C9 as stated: on a filename matching no keyword
rule, the cited document-type assignment yields `"documentation"`, not
the claimed default `"general"`. -/
theorem c9_default_not_general_counterexample :
    ToolSpec.determine_doc_type "readme.md" = "documentation"
    ∧ ("documentation" : String) ≠ "general" := by
  exact ⟨by decide, by decide⟩

/-! ## C1 -/

/-- C1 (amended): in the Gemini tool-specific generator a prompt-generation
request whose tool identifier is not among the configured tools does not
raise: the tool resolves to the default generic config, that config's
tone equals `"professional"`, and the prompt is assembled from it.  (The
enhanced multi-tool generator instead raises `ValueError` for a tool
outside its profile registry — see the counterexample.) -/
theorem c1_gemini_unknown_tool_default_profile (st : GeminiGen.GenState)
    (project_info : GeminiGen.ProjectInfo) (task_context : GeminiGen.TaskContext)
    (h : RAG.lookupKey st.tools_config task_context.tool = none) :
    GeminiGen.resolve_tool_config st task_context.tool
        = GeminiGen.get_default_tool_config task_context.tool
    ∧ (GeminiGen.resolve_tool_config st task_context.tool).tone = "professional"
    ∧ GeminiGen.generate_prompt st project_info task_context
        = GeminiGen.assemble st (GeminiGen.get_default_tool_config task_context.tool)
            project_info task_context := by
  have h1 : GeminiGen.resolve_tool_config st task_context.tool
      = GeminiGen.get_default_tool_config task_context.tool := by
    unfold GeminiGen.resolve_tool_config
    rw [h]
  refine ⟨h1, ?_, ?_⟩
  · rw [h1]
    rfl
  · unfold GeminiGen.generate_prompt
    rw [h1]

/-- A Gemini generator state holding only the two default tool configs. -/
def geminiDefaultState : GeminiGen.GenState :=
  { tools_config :=
      [("lovable", GeminiGen.default_lovable_config),
       ("cursor", GeminiGen.default_cursor_config)]
    vector_store := none }

/-- A request aimed at an unknown tool id. -/
def unknownToolTask : GeminiGen.TaskContext :=
  { task_type := "ui_development"
    project_name := "Test App"
    description := "Create a landing page"
    tool := "not_a_real_tool"
    stage := "implementation"
    technical_requirements := ["React components"]
    ui_requirements := ["Modern design"]
    constraints := ["Single page application"] }

/-- Project info accompanying the unknown-tool request. -/
def unknownToolProject : GeminiGen.ProjectInfo :=
  { name := "Test App"
    description := "A simple test application"
    tech_stack := ["React", "Node.js"]
    target_audience := "Developers"
    requirements := ["Fast loading"]
    tool := "not_a_real_tool" }

/-- Witness for C1: the concrete `tool_id = "not_a_real_tool"` request
resolves to the default config with tone `"professional"`. -/
theorem c1_gemini_unknown_tool_default_profile_witness :
    GeminiGen.resolve_tool_config geminiDefaultState "not_a_real_tool"
        = GeminiGen.get_default_tool_config "not_a_real_tool"
    ∧ (GeminiGen.resolve_tool_config geminiDefaultState "not_a_real_tool").tone
        = "professional"
    ∧ GeminiGen.generate_prompt geminiDefaultState unknownToolProject unknownToolTask
        = GeminiGen.assemble geminiDefaultState
            (GeminiGen.get_default_tool_config "not_a_real_tool")
            unknownToolProject unknownToolTask :=
  c1_gemini_unknown_tool_default_profile geminiDefaultState unknownToolProject
    unknownToolTask (by decide)

/-- A request whose target tool (`cursor`) is outside the enhanced
generator's supported profile set `{lovable, bolt}`. -/
def cursorTask : RAG.TaskContext :=
  { task_type := "code_editing"
    project_name := "Test App"
    description := "Refactor the data layer"
    stage := RAG.PromptStage.app_skeleton
    technical_requirements := []
    ui_requirements := []
    constraints := []
    target_tool := RAG.SupportedTool.cursor }

/-- Counterexample for C1 as stated: the enhanced generator's profile
registry has no entry for the requested tool id, and instead of resolving
to a default profile the generator raises (`ValueError: Unsupported
tool`). -/
theorem c1_enhanced_unknown_tool_raises_counterexample :
    RAG.lookupKey Enhanced.tool_profiles RAG.SupportedTool.cursor.value = none
    ∧ (Enhanced.generate_enhanced_prompt cursorTask ⟨[]⟩ "auto" true).isOk = false := by
  constructor
  · rfl
  · rfl

/-! ## C4 -/

/-- C4 (amended): the tool-specific generator's retrieval always applies
the `{"tool": tool}` metadata filter, so every returned chunk's tool
metadata equals the given filter; the Gemini generator's retrieval applies
the filter only when the requested tool is among its configured tools —
under that condition it too returns only matching chunks (for an
unconfigured tool it silently drops the filter; see the counterexample). -/
theorem c4_tool_filter_restricts_results :
    (∀ (st : ToolSpec.GenState) (tool task_type description : String)
       (stage : Option String) (num_docs : Nat) (d : RAG.Document),
       d ∈ ToolSpec.get_relevant_context st tool task_type description stage num_docs →
       d.tool = tool)
    ∧ (∀ (st : GeminiGen.GenState) (query tool : String) (k : Nat) (d : RAG.Document),
       tool ∈ GeminiGen.available_tools st →
       d ∈ GeminiGen.retrieved_docs st query tool k →
       d.tool = tool) := by
  constructor
  · intro st tool task_type description stage num_docs d hd
    unfold ToolSpec.get_relevant_context at hd
    cases hvs : st.vector_store with
    | none => rw [hvs] at hd; simp at hd
    | some vs =>
      rw [hvs] at hd
      simp only [RAG.similarity_search] at hd
      have hmem := List.take_subset _ _ hd
      exact eq_of_beq (List.mem_filter.mp hmem).2
  · intro st query tool k d htool hd
    unfold GeminiGen.retrieved_docs at hd
    cases hvs : st.vector_store with
    | none => rw [hvs] at hd; simp at hd
    | some vs =>
      rw [hvs] at hd
      rw [if_pos (List.elem_eq_true_of_mem htool)] at hd
      simp only [RAG.similarity_search] at hd
      have hmem := List.take_subset _ _ hd
      exact eq_of_beq (List.mem_filter.mp hmem).2

/-- A store indexing chunks of two different tools. -/
def mixedStore : RAG.VectorStore :=
  { rank := fun _ => [sampleLovableDoc, sampleBoltDoc]
    rankScored := fun _ => [(sampleLovableDoc, 0.9), (sampleBoltDoc, 0.8)] }

/-- A tool-specific generator state over the mixed store. -/
def mixedToolSpecState : ToolSpec.GenState :=
  { tools_config := [("lovable", GeminiGen.default_lovable_config)]
    vector_store := some mixedStore }

/-- Witness for C4: with a filter, retrieval over the mixed store returns
exactly the lovable chunk, whose tool metadata is the filter value. -/
theorem c4_tool_filter_restricts_results_witness :
    ToolSpec.get_relevant_context mixedToolSpecState "lovable" "ui" "landing page"
        none 5 = [sampleLovableDoc]
    ∧ sampleLovableDoc.tool = "lovable" :=
  ⟨by decide,
   c4_tool_filter_restricts_results.1 mixedToolSpecState "lovable" "ui"
     "landing page" none 5 sampleLovableDoc (by decide)⟩

/-- A Gemini generator state over a store that only indexes bolt chunks,
with `lovable` the only configured tool. -/
def boltOnlyGeminiState : GeminiGen.GenState :=
  { tools_config := [("lovable", GeminiGen.default_lovable_config)]
    vector_store := some
      { rank := fun _ => [sampleBoltDoc]
        rankScored := fun _ => [(sampleBoltDoc, 0.9)] } }

/-- Counterexample for C4 as stated: querying the Gemini retrieval with
tool filter `"cursor"` (not among the configured tools) silently drops
the filter and returns a chunk whose tool metadata is `"bolt"`. -/
theorem c4_gemini_filter_dropped_counterexample :
    GeminiGen.retrieved_docs boltOnlyGeminiState "query" "cursor" 5 = [sampleBoltDoc]
    ∧ GeminiGen.get_relevant_context boltOnlyGeminiState "query" "cursor" 5
        = [sampleBoltDoc.page_content]
    ∧ sampleBoltDoc.tool ≠ "cursor" := by
  refine ⟨by decide, by decide, by decide⟩

/-! ## C5 -/

/-- C5: when no vector store is loaded for the requested tool, retrieval
returns `[]` without error (in both the basic and the tool-specific
generator), and prompt generation still returns a result built from the
template and tool profile alone (its sources list is empty). -/
theorem c5_missing_index_returns_empty_and_degrades
    (env : MultiTool.GenEnv) (task_context : RAG.TaskContext)
    (project_info : RAG.ProjectInfo) (tool_profile : RAG.ToolProfile)
    (stage : RAG.PromptStage) (query task_type : String)
    (st : ToolSpec.GenState) (tool ttype descr : String)
    (ostage : Option String) (num_docs : Nat)
    (hprof : RAG.lookupKey env.tool_profiles task_context.target_tool = some tool_profile)
    (hstore : RAG.lookupKey env.vector_stores task_context.target_tool = none)
    (hst : st.vector_store = none) :
    MultiTool.get_relevant_context env task_context.target_tool stage query task_type = []
    ∧ (∃ r, MultiTool.generate_prompt env task_context project_info none none
        = Except.ok r ∧ r.sources = [])
    ∧ ToolSpec.get_relevant_context st tool ttype descr ostage num_docs = [] := by
  have hcd : MultiTool.context_docs_for env task_context task_context.target_tool
      task_context.stage = [] := by
    unfold MultiTool.context_docs_for MultiTool.get_relevant_context
    rw [hstore]
  refine ⟨?_, ?_, ?_⟩
  · unfold MultiTool.get_relevant_context
    rw [hstore]
  · simp only [MultiTool.generate_prompt, Option.getD_none, hprof, hcd]
    cases htpl : env.templates
        (MultiTool.selected_template_name tool_profile task_context.stage) with
    | none => exact ⟨_, rfl, rfl⟩
    | some tmpl =>
      dsimp only
      cases hr : tmpl (MultiTool.build_template_context task_context project_info
          tool_profile [] task_context.stage) with
      | error e => exact ⟨_, rfl, rfl⟩
      | ok p => exact ⟨_, rfl, by simp⟩
  · unfold ToolSpec.get_relevant_context
    rw [hst]

/-- A sample project description. -/
def sampleProject : RAG.ProjectInfo :=
  { name := "TaskMaster Pro"
    description := "Professional task management platform for teams"
    tech_stack := ["Next.js", "TypeScript"]
    target_audience := "Business professionals"
    requirements := [] }

/-- A generator environment with an empty vector-store map and an empty
template environment. -/
def storelessEnv : MultiTool.GenEnv :=
  { tool_profiles :=
      [(RAG.SupportedTool.lovable,
        MultiTool.get_default_tool_profile RAG.SupportedTool.lovable)]
    vector_stores := []
    templates := fun _ => none }

/-- A tool-specific generator state with no vector store. -/
def storelessToolSpecState : ToolSpec.GenState :=
  { tools_config := [], vector_store := none }

/-- Witness for C5 on a concrete store-less environment. -/
theorem c5_missing_index_returns_empty_and_degrades_witness :
    MultiTool.get_relevant_context storelessEnv RAG.SupportedTool.lovable
        RAG.PromptStage.app_skeleton "build a dashboard" "" = []
    ∧ (∃ r, MultiTool.generate_prompt storelessEnv sampleSkeletonCtx sampleProject
        none none = Except.ok r ∧ r.sources = [])
    ∧ ToolSpec.get_relevant_context storelessToolSpecState "lovable" "ui"
        "landing page" none 5 = [] :=
  c5_missing_index_returns_empty_and_degrades storelessEnv sampleSkeletonCtx
    sampleProject (MultiTool.get_default_tool_profile RAG.SupportedTool.lovable)
    RAG.PromptStage.app_skeleton "build a dashboard" ""
    storelessToolSpecState "lovable" "ui" "landing page" none 5
    (by decide) rfl rfl

/-! ## C2 -/

/-- The fixed-format fallback prompt text is never empty (it starts with
a literal heading). -/
theorem fallback_prompt_text_ne_empty (task_context : RAG.TaskContext)
    (project_info : RAG.ProjectInfo) (tool_profile : RAG.ToolProfile)
    (stage : RAG.PromptStage) :
    MultiTool.fallback_prompt_text task_context project_info tool_profile stage ≠ "" := by
  unfold MultiTool.fallback_prompt_text
  repeat' apply str_append_ne_left
  decide

/-- C2: for every task context and project info, if the template lookup
fails or the template render fails, the basic generator still returns a
`PromptResult` whose prompt text is non-empty and whose confidence score
is exactly `0.4`. -/
theorem c2_template_failure_yields_fallback
    (env : MultiTool.GenEnv) (task_context : RAG.TaskContext)
    (project_info : RAG.ProjectInfo) (tool_profile : RAG.ToolProfile)
    (hprof : RAG.lookupKey env.tool_profiles task_context.target_tool = some tool_profile)
    (hfail : env.templates
        (MultiTool.selected_template_name tool_profile task_context.stage) = none
      ∨ ∃ tmpl e, env.templates
            (MultiTool.selected_template_name tool_profile task_context.stage) = some tmpl
          ∧ tmpl (MultiTool.build_template_context task_context project_info tool_profile
              (MultiTool.context_docs_for env task_context task_context.target_tool
                task_context.stage)
              task_context.stage) = Except.error e) :
    ∃ r, MultiTool.generate_prompt env task_context project_info none none = Except.ok r
      ∧ r.prompt ≠ "" ∧ r.confidence_score = (0.4 : ℚ) := by
  simp only [MultiTool.generate_prompt, Option.getD_none, hprof]
  rcases hfail with hnone | ⟨tmpl, e, hsome, herr⟩
  · rw [hnone]
    exact ⟨_, rfl, fallback_prompt_text_ne_empty task_context project_info _
      task_context.stage, rfl⟩
  · rw [hsome]
    dsimp only
    rw [herr]
    exact ⟨_, rfl, fallback_prompt_text_ne_empty task_context project_info _
      task_context.stage, rfl⟩

/-- Witness for C2: in the store-less environment (whose template
environment resolves no template name) the generator returns the fallback
result with confidence exactly `0.4`. -/
theorem c2_template_failure_yields_fallback_witness :
    ∃ r, MultiTool.generate_prompt storelessEnv sampleSkeletonCtx sampleProject
        none none = Except.ok r
      ∧ r.prompt ≠ "" ∧ r.confidence_score = (0.4 : ℚ) :=
  c2_template_failure_yields_fallback storelessEnv sampleSkeletonCtx sampleProject
    (MultiTool.get_default_tool_profile RAG.SupportedTool.lovable)
    (by decide) (Or.inl rfl)

/-! ## C8 -/

/-- The Lovable skeleton-stage prompt contains the literal project name
and task description strings. -/
theorem lovable_skeleton_prompt_contains_fields (context : RAG.TaskContext)
    (qr : RAG.ChromaQueryResult)
    (hstage : context.stage = RAG.PromptStage.app_skeleton) :
    StrContains (Enhanced.generate_lovable_prompt context qr) context.project_name
    ∧ StrContains (Enhanced.generate_lovable_prompt context qr) context.description := by
  unfold Enhanced.generate_lovable_prompt
  rw [if_pos hstage]
  constructor
  · iterate 9 apply strContains_append_right
    exact strContains_suffix _ _
  · iterate 7 apply strContains_append_right
    exact strContains_suffix _ _

/-- With no technical requirements, the enhanced confidence score can
collect at most the `0.2` context bonus and the `0.1` use-case bonus on
top of the `0.5` base. -/
theorem enhanced_confidence_le_08 (context : RAG.TaskContext)
    (qr : RAG.ChromaQueryResult) (profile : RAG.ToolProfile)
    (htech : context.technical_requirements = []) :
    Enhanced.calculate_confidence_score context qr profile ≤ (0.8 : ℚ) := by
  simp only [Enhanced.calculate_confidence_score, htech, List.isEmpty_nil,
    Bool.not_true, Bool.false_and, Bool.false_eq_true, if_false]
  refine le_trans (min_le_left _ 1) ?_
  split_ifs <;> norm_num

/-- C8 (amended): for every request with empty technical, UI and
constraint lists, target tool `lovable` and stage `app_skeleton`, the
rendered prompt contains the literal project name and task description
strings, and the confidence score is at most `0.8` (the `0.2`
requirement bonus is excluded; the `0.2` context bonus and `0.1`
use-case bonus can still accrue, so `0.7` is not an upper bound — see
the counterexample). -/
theorem c8_lovable_skeleton_scenario (context : RAG.TaskContext)
    (qr : RAG.ChromaQueryResult)
    (htool : context.target_tool = RAG.SupportedTool.lovable)
    (hstage : context.stage = RAG.PromptStage.app_skeleton)
    (htech : context.technical_requirements = [])
    (hui : context.ui_requirements = [])
    (_hcon : context.constraints = []) :
    ∃ r, Enhanced.generate_enhanced_prompt context qr "auto" true = Except.ok r
      ∧ StrContains r.prompt context.project_name
      ∧ StrContains r.prompt context.description
      ∧ r.confidence_score ≤ (0.8 : ℚ) := by
  have hlookup : RAG.lookupKey Enhanced.tool_profiles context.target_tool.value
      = some Enhanced.lovable_profile := by
    rw [htool]
    rfl
  have hbase : Enhanced.generate_base_prompt context Enhanced.lovable_profile qr
      = Enhanced.generate_lovable_prompt context qr := by
    unfold Enhanced.generate_base_prompt
    rw [if_pos (show Enhanced.lovable_profile.tool_name = "Lovable.dev" from rfl)]
  have hopt : Enhanced.apply_tool_optimizations
      (Enhanced.generate_lovable_prompt context qr) context Enhanced.lovable_profile
      = Enhanced.generate_lovable_prompt context qr := by
    simp only [Enhanced.apply_tool_optimizations]
    rw [if_pos (show Enhanced.lovable_profile.tool_name = "Lovable.dev" from rfl),
      if_neg (show ¬(context.ui_requirements.contains "responsive" = true) by
        rw [hui]; decide),
      if_neg (show ¬(context.stage = RAG.PromptStage.debugging) by
        rw [hstage]; decide)]
  simp only [Enhanced.generate_enhanced_prompt, hlookup]
  refine ⟨_, rfl, ?_, ?_, ?_⟩
  · dsimp only
    simp only [if_true, hbase, hopt]
    exact (lovable_skeleton_prompt_contains_fields context qr hstage).1
  · dsimp only
    simp only [if_true, hbase, hopt]
    exact (lovable_skeleton_prompt_contains_fields context qr hstage).2
  · exact enhanced_confidence_le_08 context qr Enhanced.lovable_profile htech

/-- A lovable skeleton request with empty requirement lists. -/
def emptyReqCtx : RAG.TaskContext :=
  { task_type := "build complete application"
    project_name := "TaskMaster Pro"
    description := "A comprehensive task management application"
    stage := RAG.PromptStage.app_skeleton
    technical_requirements := []
    ui_requirements := []
    constraints := []
    target_tool := RAG.SupportedTool.lovable }

/-- Witness for C8 at a concrete empty-requirements request with no
retrieved documents. -/
theorem c8_lovable_skeleton_scenario_witness :
    ∃ r, Enhanced.generate_enhanced_prompt emptyReqCtx ⟨[]⟩ "auto" true = Except.ok r
      ∧ StrContains r.prompt emptyReqCtx.project_name
      ∧ StrContains r.prompt emptyReqCtx.description
      ∧ r.confidence_score ≤ (0.8 : ℚ) :=
  c8_lovable_skeleton_scenario emptyReqCtx ⟨[]⟩ rfl rfl rfl rfl rfl

/-- An empty-requirements lovable skeleton request whose task type is
among the Lovable profile's preferred use cases. -/
def reactSkeletonCtx : RAG.TaskContext :=
  { task_type := "react_development"
    project_name := "TaskMaster Pro"
    description := "Build the application shell"
    stage := RAG.PromptStage.app_skeleton
    technical_requirements := []
    ui_requirements := []
    constraints := []
    target_tool := RAG.SupportedTool.lovable }

/-- A non-empty retrieval response. -/
def richQueryResult : RAG.ChromaQueryResult :=
  ⟨[["Retrieved lovable documentation snippet"]]⟩

/-- Counterexample for C8 as stated: with empty requirement lists but a
matching preferred use case and retrieved documents, the confidence
score is `0.8`, which exceeds the claimed `0.7` bound. -/
theorem c8_confidence_exceeds_bound_counterexample :
    Enhanced.calculate_confidence_score reactSkeletonCtx richQueryResult
        Enhanced.lovable_profile = (0.8 : ℚ)
    ∧ ¬(Enhanced.calculate_confidence_score reactSkeletonCtx richQueryResult
        Enhanced.lovable_profile ≤ (0.7 : ℚ)) := by
  have h : Enhanced.calculate_confidence_score reactSkeletonCtx richQueryResult
      Enhanced.lovable_profile = min ((0.5 : ℚ) + 0.2 + 0.1) 1 := rfl
  rw [h]
  norm_num
